import Mathlib

/-!
# DuoReport session core — shallow embedding

A shallow embedding of the session/room coordination core of `src/main.py`
(FastAPI realtime collaborative report editor) and proofs of the spec's
claims about it.

Modelling conventions:
* Python dicts are association lists (`List (String × α)`) with Python's
  insertion-order update semantics (`aset` replaces in place, appends new
  keys at the end).
* Timestamps (`time.time()`) are `Nat` parameters supplied by the caller.
* The Redis store is an association list from keys to `(Document, ttl)`;
  `setex` is an unconditional overwrite that also records the ttl.
* A websocket is identified by a `Nat` handle; sending a JSON payload is
  recorded as a `(handle, ServerMsg)` pair in an output list.
* `redis_client` being `None` (store unreachable) is a `Bool` parameter
  `redisAvail`.
* Each `await`-free straight-line block of the Python source becomes one
  Lean function; the asynchronous loop structure (which the claims do not
  quantify over) is not itself modelled.
-/

namespace DuoReport

/-- Association-list lookup: `d[k]` / `d.get(k)` on a Python dict. -/
def alookup {α : Type} : List (String × α) → String → Option α
  | [], _ => none
  | (k, v) :: rest, key => if k = key then some v else alookup rest key

/-- Association-list store: `d[k] = v` on a Python dict — replaces the value
in place when the key exists, appends a new entry at the end otherwise. -/
def aset {α : Type} : List (String × α) → String → α → List (String × α)
  | [], key, val => [(key, val)]
  | (k, v) :: rest, key, val =>
      if k = key then (k, val) :: rest else (k, v) :: aset rest key val

/-- Association-list delete: `del d[k]` on a Python dict. -/
def aremove {α : Type} (l : List (String × α)) (key : String) : List (String × α) :=
  l.filter (fun p => p.1 ≠ key)

/-- The key list of a Python dict, in insertion order. -/
def akeys {α : Type} (l : List (String × α)) : List String :=
  l.map Prod.fst

/-- `k in d` on a Python dict. -/
def hasKey {α : Type} (l : List (String × α)) (key : String) : Bool :=
  (alookup l key).isSome

/-- `TEMPLATE_SECTIONS` (main.py lines 44-51): the six fixed section keys,
all mapped to the empty string. -/
def TEMPLATE_SECTIONS : List (String × String) :=
  [("abstract", ""), ("introduction", ""), ("methodology", ""),
   ("results", ""), ("conclusion", ""), ("references", "")]

/-- The six fixed section keys, in template order. -/
def sixKeys : List String := akeys TEMPLATE_SECTIONS

/-- A persisted document record (the JSON value stored under
`"report:" + room_id`).  `created_at` is `Option` because the document
created on first websocket connection (main.py lines 265-269) omits that
field while `create_room` (lines 198-203) includes it; the other three
fields are present in both creation paths. -/
structure Document where
  sections : List (String × String)
  cursors : List (String × String)
  created_at : Option Nat
  last_active : Nat
deriving DecidableEq, Repr

/-- The Redis store: key ↦ (document, ttl set at the most recent write). -/
abbrev Store := List (String × (Document × Nat))

/-- `redis_client.setex(key, ttl, json.dumps(doc))`: unconditional overwrite
that also resets the expiry to `ttl`. -/
def setex (store : Store) (key : String) (ttl : Nat) (doc : Document) : Store :=
  aset store key (doc, ttl)

/-- One live connection's registry entry (`connection_info`, main.py
lines 242-246): websocket handle, display name, join timestamp. -/
structure Conn where
  ws : Nat
  username : String
  connected_at : Nat
deriving DecidableEq, Repr

/-- The in-process `ConnectionManager` state: `active_connections` maps a
room id to its connection list; `auto_save_tasks` records the rooms whose
keep-alive task is running. -/
structure Manager where
  active_connections : List (String × List Conn)
  auto_save_tasks : List String
deriving DecidableEq, Repr

/-- The connection list of a room (empty when the room has no entry). -/
def roomConns (mgr : Manager) (room_id : String) : List Conn :=
  (alookup mgr.active_connections room_id).getD []

/-- `ConnectionManager.get_users` (main.py lines 149-153). -/
def getUsers (mgr : Manager) (room_id : String) : List String :=
  (roomConns mgr room_id).map Conn.username

/-- `ConnectionManager.disconnect` (main.py lines 102-117): filter the
websocket out of the room; when the room becomes empty, delete its entry
and cancel (drop) its keep-alive task. -/
def Manager.disconnect (mgr : Manager) (room_id : String) (ws : Nat) : Manager :=
  match alookup mgr.active_connections room_id with
  | none => mgr
  | some conns =>
      let conns' := conns.filter (fun c => c.ws ≠ ws)
      if conns'.length = 0 then
        ⟨aremove mgr.active_connections room_id,
         mgr.auto_save_tasks.filter (fun r => r ≠ room_id)⟩
      else
        ⟨aset mgr.active_connections room_id conns', mgr.auto_save_tasks⟩

/-- The server→client JSON payloads of the synchronization protocol
(spec §4.3; main.py lines 231-234, 273-285, 309-315, 323-328, 332-336).
Fields that the Python code reads with `.get(...)` (and may therefore be
`None`) are `Option String`. -/
inductive ServerMsg where
  | error (message : String)
  | initReply (document : Document) (username : String) (users : List String)
  | user_joined (username : String) (users : List String)
  | user_left (username : String) (users : List String)
  | edit (sectionKey : Option String) (delta : Option String)
         (content : Option String) (username : String)
  | cursor (sectionKey : Option String) (position : Option String)
           (username : String)
deriving DecidableEq, Repr

/-- The `for connection in ...` loop of `ConnectionManager.broadcast`
(main.py lines 122-127): send `msg` to every connection whose websocket
differs from `exclude`, in list order. -/
def sendAll (conns : List Conn) (msg : ServerMsg) (exclude : Option Nat) :
    List (Nat × ServerMsg) :=
  match conns with
  | [] => []
  | c :: rest =>
      if some c.ws = exclude then sendAll rest msg exclude
      else (c.ws, msg) :: sendAll rest msg exclude

/-- `ConnectionManager.broadcast` (main.py lines 119-127): send `msg` to
every connection of the room whose websocket differs from `exclude`; the
result is the list of (recipient, payload) sends attempted. -/
def broadcastTo (mgr : Manager) (room_id : String) (msg : ServerMsg)
    (exclude : Option Nat) : List (Nat × ServerMsg) :=
  sendAll (roomConns mgr room_id) msg exclude

/-- The literal capacity-error text (main.py lines 81, 233). -/
def roomFullMsg : String := "Room is full. Only 2 users allowed per room."

/-- `create_room` (main.py lines 189-211): with no Redis, HTTP 503; else pick
`room_id = str(uuid.uuid4())[:8]`, seed the document (all six sections
empty, empty cursors, both timestamps now), `setex` it under
`"report:" + room_id` with ttl 3600, return `{room_id: ...}`.  The
fresh UUID string and the clock are parameters. -/
def create_room (redisAvail : Bool) (uuidStr : String) (now : Nat)
    (store : Store) : Except Nat (Store × String) :=
  if redisAvail then
    let room_id := uuidStr.take 8
    let doc : Document :=
      { sections := TEMPLATE_SECTIONS, cursors := [],
        created_at := some now, last_active := now }
    .ok (setex store ("report:" ++ room_id) 3600 doc, room_id)
  else
    .error 503

/-- The document seeded on first websocket connection to an unseen room
(main.py lines 265-269) — note: no `created_at` field. -/
def freshConnDoc (now : Nat) : Document :=
  { sections := TEMPLATE_SECTIONS, cursors := [],
    created_at := none, last_active := now }

/-- Load-or-create of the room document inside the websocket endpoint
(main.py lines 256-270): return the stored document unchanged when
present; otherwise seed `freshConnDoc` and `setex` it with ttl 3600. -/
def loadOrCreate (store : Store) (docKey : String) (now : Nat) :
    Document × Store :=
  match alookup store docKey with
  | some entry => (entry.1, store)
  | none =>
      let doc := freshConnDoc now
      (doc, setex store docKey 3600 doc)

/-- The first inbound message of a connection: either `receive_json` raised
(malformed / missing / transport closed), or a JSON object whose
`username` field is `u` (`none` when absent). -/
inductive Handshake where
  | malformed
  | msg (u : Option String)
deriving DecidableEq, Repr

/-- Outcome of the connection-opening phase of `websocket_endpoint`
(main.py lines 218-285), up to entering the message loop. -/
structure StartResult where
  manager : Manager
  store : Store
  sent : List (Nat × ServerMsg)
  closed : Bool
  admitted : Bool
  username : Option String
deriving DecidableEq, Repr

/-- `websocket_endpoint` lines 218-285: accept; read the handshake (on
failure close silently and return); reject with `error` + close when the
room already has ≥ 2 connections; otherwise append the connection, ensure
the keep-alive task, and — when Redis is available — load-or-create the
document, send `init` to the joiner and broadcast `user_joined` to the
other participant. -/
def sessionStart (redisAvail : Bool) (mgr : Manager) (store : Store)
    (room_id : String) (ws : Nat) (first : Handshake) (now : Nat) :
    StartResult :=
  match first with
  | .malformed =>
      { manager := mgr, store := store, sent := [], closed := true,
        admitted := false, username := none }
  | .msg u =>
      let username := u.getD "Anonymous"
      if 2 ≤ (roomConns mgr room_id).length then
        { manager := mgr, store := store,
          sent := [(ws, .error roomFullMsg)], closed := true,
          admitted := false, username := some username }
      else
        let conns := roomConns mgr room_id ++ [⟨ws, username, now⟩]
        let mgr1 : Manager :=
          { active_connections := aset mgr.active_connections room_id conns,
            auto_save_tasks :=
              if mgr.auto_save_tasks.contains room_id then
                mgr.auto_save_tasks
              else
                room_id :: mgr.auto_save_tasks }
        if redisAvail then
          let res := loadOrCreate store ("report:" ++ room_id) now
          let users := getUsers mgr1 room_id
          { manager := mgr1, store := res.2,
            sent := (ws, .initReply res.1 username users) ::
                      broadcastTo mgr1 room_id
                        (.user_joined username users) (some ws),
            closed := false, admitted := true, username := some username }
        else
          { manager := mgr1, store := store, sent := [], closed := false,
            admitted := true, username := some username }

/-- One inbound message of the `Active` loop, after reading its `type`
discriminator (main.py lines 289-328); fields read via `.get` are
`Option String`. `other` covers any unknown `type`. -/
inductive ClientMsg where
  | edit (sectionKey : Option String) (delta : Option String)
         (content : Option String)
  | cursor (sectionKey : Option String) (position : Option String)
  | other
deriving DecidableEq, Repr

/-- Python truthiness of `data.get("section")`: `None` and `""` are falsy. -/
def truthy : Option String → Bool
  | none => false
  | some s => s ≠ ""

/-- The document mutation of the edit handler (main.py lines 302-305):
set the section's content when `content is not None`, then bump
`last_active`. -/
def applyEdit (doc : Document) (sectionKey : String)
    (content : Option String) (now : Nat) : Document :=
  let doc1 :=
    match content with
    | some c => { doc with sections := aset doc.sections sectionKey c }
    | none => doc
  { doc1 with last_active := now }

/-- One iteration of the `Active` message loop (main.py lines 288-328):
`edit` persists and rebroadcasts only when `redis_client and section` is
truthy; `cursor` rebroadcasts unconditionally; anything else is ignored.
Returns the new store and the sends attempted. -/
def handleMessage (redisAvail : Bool) (mgr : Manager) (store : Store)
    (room_id : String) (ws : Nat) (username : String) (now : Nat)
    (data : ClientMsg) : Store × List (Nat × ServerMsg) :=
  let docKey := "report:" ++ room_id
  match data with
  | .edit sectionKey delta content =>
      if redisAvail && truthy sectionKey then
        let store1 :=
          match alookup store docKey with
          | some entry =>
              setex store docKey 3600
                (applyEdit entry.1 (sectionKey.getD "") content now)
          | none => store
        (store1,
         broadcastTo mgr room_id
           (.edit sectionKey delta content username) (some ws))
      else
        (store, [])
  | .cursor sectionKey position =>
      (store,
       broadcastTo mgr room_id
         (.cursor sectionKey position username) (some ws))
  | .other => (store, [])

/-- How the `Active` loop of `websocket_endpoint` terminated: the
`WebSocketDisconnect` handler (main.py lines 330-336) or the generic
`except Exception` handler (lines 337-339). -/
inductive TermCause where
  | disconnect
  | otherError
deriving DecidableEq, Repr

/-- The two exception handlers of `websocket_endpoint` (main.py
lines 330-339): `WebSocketDisconnect` runs registry cleanup and then
broadcasts `user_left` (no exclusion) with the post-removal user list;
any other exception runs only the cleanup. -/
def handleTermination (mgr : Manager) (room_id : String) (ws : Nat)
    (username : String) : TermCause → Manager × List (Nat × ServerMsg)
  | .disconnect =>
      let mgr' := mgr.disconnect room_id ws
      (mgr', broadcastTo mgr' room_id
               (.user_left username (getUsers mgr' room_id)) none)
  | .otherError => (mgr.disconnect room_id ws, [])

/-- One wake-up of `ConnectionManager.auto_save_loop` (main.py
lines 129-147): when Redis is available and the room's record exists,
re-read it, set `last_active` to now, and `setex` it back with ttl 3600. -/
def autoSaveStep (redisAvail : Bool) (store : Store) (room_id : String)
    (now : Nat) : Store :=
  if redisAvail then
    let docKey := "report:" ++ room_id
    match alookup store docKey with
    | some entry =>
        setex store docKey 3600 { entry.1 with last_active := now }
    | none => store
  else
    store

/-! ## Association-list and registry lemmas -/

theorem alookup_aset {α : Type} (l : List (String × α)) (k k' : String)
    (v : α) :
    alookup (aset l k v) k' = if k = k' then some v else alookup l k' := by
  induction l with
  | nil =>
      simp only [aset, alookup]
  | cons p rest ih =>
      obtain ⟨pk, pv⟩ := p
      by_cases hpk : pk = k
      · subst hpk
        by_cases hk' : pk = k' <;> simp [aset, alookup, hk']
      · have hkp : ¬ k = pk := fun h => hpk h.symm
        by_cases hk' : pk = k'
        · subst hk'
          simp [aset, alookup, hpk, hkp]
        · simp [aset, alookup, hpk, hk', ih]

theorem alookup_aremove {α : Type} (l : List (String × α)) (k k' : String) :
    alookup (aremove l k) k' = if k = k' then none else alookup l k' := by
  induction l with
  | nil => simp [aremove, alookup]
  | cons p rest ih =>
      obtain ⟨pk, pv⟩ := p
      by_cases hpk : pk = k
      · subst hpk
        have hdrop : aremove ((pk, pv) :: rest) pk = aremove rest pk := by
          simp [aremove, List.filter_cons]
        rw [hdrop, ih]
        by_cases hk' : pk = k'
        · simp [hk']
        · simp [alookup, hk']
      · have hkeep : aremove ((pk, pv) :: rest) k = (pk, pv) :: aremove rest k := by
          simp [aremove, List.filter_cons, hpk]
        rw [hkeep]
        simp only [alookup, ih]
        by_cases hk' : pk = k'
        · have hne : ¬ k = k' := fun h => hpk (hk'.trans h.symm)
          simp [hk', hne]
        · simp [hk']

theorem mem_akeys_iff_hasKey {α : Type} (l : List (String × α)) (k : String) :
    k ∈ akeys l ↔ hasKey l k = true := by
  induction l with
  | nil => simp [hasKey, alookup, akeys]
  | cons p rest ih =>
      obtain ⟨pk, pv⟩ := p
      by_cases hpk : pk = k
      · subst hpk
        simp [hasKey, alookup, akeys]
      · have hkp : ¬ k = pk := fun h => hpk h.symm
        simp only [akeys, List.map_cons, List.mem_cons, hasKey, alookup,
          if_neg hpk] at ih ⊢
        simp [hkp, ih]

theorem akeys_aset {α : Type} (l : List (String × α)) (k : String) (v : α) :
    akeys (aset l k v) =
      if hasKey l k then akeys l else akeys l ++ [k] := by
  induction l with
  | nil => simp [aset, akeys, hasKey, alookup]
  | cons p rest ih =>
      obtain ⟨pk, pv⟩ := p
      by_cases hpk : pk = k
      · subst hpk
        simp [aset, akeys, hasKey, alookup]
      · simp only [aset, if_neg hpk, akeys, List.map_cons, hasKey, alookup,
          if_neg hpk] at ih ⊢
        rw [ih]
        by_cases hk : (alookup rest k).isSome = true <;> simp [hk]

theorem mem_akeys_aset {α : Type} (l : List (String × α)) (k k' : String)
    (v : α) (h : k' ∈ akeys l) :
    k' ∈ akeys (aset l k v) := by
  rw [akeys_aset]
  by_cases hk : hasKey l k <;> simp [hk, h]

theorem roomConns_aset (ac : List (String × List Conn)) (ts : List String)
    (room : String) (conns : List Conn) (r : String) :
    roomConns ⟨aset ac room conns, ts⟩ r =
      if room = r then conns else roomConns ⟨ac, ts⟩ r := by
  simp only [roomConns, alookup_aset]
  split <;> rfl

theorem roomConns_disconnect (mgr : Manager) (room : String) (ws : Nat)
    (r : String) :
    roomConns (mgr.disconnect room ws) r =
      if room = r then (roomConns mgr r).filter (fun c => c.ws ≠ ws)
      else roomConns mgr r := by
  cases hlook : alookup mgr.active_connections room with
  | none =>
      simp only [Manager.disconnect, hlook]
      by_cases hr : room = r
      · subst hr
        simp [roomConns, hlook]
      · simp [hr]
  | some conns =>
      simp only [Manager.disconnect, hlook]
      by_cases hlen : (conns.filter (fun c => c.ws ≠ ws)).length = 0
      · rw [if_pos hlen]
        have hnil : conns.filter (fun c => c.ws ≠ ws) = [] :=
          List.eq_nil_of_length_eq_zero hlen
        by_cases hr : room = r
        · subst hr
          have hnil' : conns.filter (fun c => !decide (c.ws = ws)) = [] := by
            simpa using hnil
          simp [roomConns, alookup_aremove, hlook, hnil']
        · simp [roomConns, alookup_aremove, hr]
      · rw [if_neg hlen]
        by_cases hr : room = r
        · subst hr
          simp [roomConns, alookup_aset, hlook]
        · simp [roomConns, alookup_aset, hr]

theorem sendAll_some_eq (conns : List Conn) (msg : ServerMsg) (ws : Nat) :
    sendAll conns msg (some ws) =
      (conns.filter (fun c => c.ws ≠ ws)).map (fun c => (c.ws, msg)) := by
  induction conns with
  | nil => rfl
  | cons c cs ih =>
      by_cases h : c.ws = ws <;>
        simp [sendAll, List.filter_cons, h, ih]

theorem sendAll_none_eq (conns : List Conn) (msg : ServerMsg) :
    sendAll conns msg none = conns.map (fun c => (c.ws, msg)) := by
  induction conns with
  | nil => rfl
  | cons c cs ih => simp [sendAll, ih]

theorem broadcastTo_some_eq (mgr : Manager) (room : String) (msg : ServerMsg)
    (ws : Nat) :
    broadcastTo mgr room msg (some ws) =
      ((roomConns mgr room).filter (fun c => c.ws ≠ ws)).map
        (fun c => (c.ws, msg)) := by
  simp only [broadcastTo, sendAll_some_eq]

theorem broadcastTo_none_eq (mgr : Manager) (room : String)
    (msg : ServerMsg) :
    broadcastTo mgr room msg none =
      (roomConns mgr room).map (fun c => (c.ws, msg)) := by
  simp only [broadcastTo, sendAll_none_eq]

theorem broadcastTo_excludes (mgr : Manager) (room : String) (msg : ServerMsg)
    (ws : Nat) :
    ∀ p ∈ broadcastTo mgr room msg (some ws), p.1 ≠ ws := by
  intro p hp
  rw [broadcastTo_some_eq] at hp
  simp only [List.mem_map, List.mem_filter] at hp
  obtain ⟨c, ⟨_, hne⟩, hc⟩ := hp
  subst hc
  simpa using hne

theorem sessionStart_manager (ra : Bool) (mgr : Manager) (store : Store)
    (room_id : String) (ws : Nat) (u : Option String) (now : Nat) :
    (sessionStart ra mgr store room_id ws (.msg u) now).manager =
      if 2 ≤ (roomConns mgr room_id).length then mgr
      else
        ⟨aset mgr.active_connections room_id
           (roomConns mgr room_id ++ [⟨ws, u.getD "Anonymous", now⟩]),
         if mgr.auto_save_tasks.contains room_id then mgr.auto_save_tasks
         else room_id :: mgr.auto_save_tasks⟩ := by
  by_cases hfull : 2 ≤ (roomConns mgr room_id).length <;>
    cases ra <;> simp [sessionStart, hfull]

/-! ## Claim theorems -/

/-- C1: every room holds at most 2 admitted participants at all times —
the invariant is preserved both by connection admission and by session
termination — and an admission attempt on a room that already holds 2
participants sends the `RoomFull` error to the attempting websocket,
closes it, and mutates neither the registry nor the store. -/
theorem C1_two_participant_cap (ra : Bool) (mgr : Manager) (store : Store)
    (room_id : String) (ws : Nat) (first : Handshake) (now : Nat)
    (username : String) (cause : TermCause)
    (hinv : ∀ r, (roomConns mgr r).length ≤ 2) :
    (∀ r, (roomConns
        (sessionStart ra mgr store room_id ws first now).manager r).length ≤ 2)
    ∧ (∀ r, (roomConns
        (handleTermination mgr room_id ws username cause).1 r).length ≤ 2)
    ∧ (2 ≤ (roomConns mgr room_id).length → ∀ u,
        sessionStart ra mgr store room_id ws (.msg u) now =
          { manager := mgr, store := store,
            sent := [(ws, .error roomFullMsg)], closed := true,
            admitted := false, username := some (u.getD "Anonymous") }) := by
  refine ⟨?_, ?_, ?_⟩
  · intro r
    cases first with
    | malformed => exact hinv r
    | msg u =>
        rw [sessionStart_manager]
        by_cases hfull : 2 ≤ (roomConns mgr room_id).length
        · rw [if_pos hfull]
          exact hinv r
        · rw [if_neg hfull, roomConns_aset]
          by_cases hr : room_id = r
          · rw [if_pos hr]
            have := hinv room_id
            simp only [List.length_append, List.length_cons, List.length_nil]
            omega
          · rw [if_neg hr]
            exact hinv r
  · intro r
    have h1 : (handleTermination mgr room_id ws username cause).1 =
        mgr.disconnect room_id ws := by
      cases cause <;> rfl
    rw [h1, roomConns_disconnect]
    by_cases hr : room_id = r
    · rw [if_pos hr]
      exact le_trans (List.length_filter_le _ _) (hinv r)
    · rw [if_neg hr]
      exact hinv r
  · intro hfull u
    simp [sessionStart, hfull]

theorem C1_two_participant_cap_witness :
    sessionStart true ⟨[("r", [⟨1, "Alice", 0⟩, ⟨2, "Bob", 0⟩])], ["r"]⟩ []
        "r" 3 (.msg (some "Carol")) 7 =
      { manager := ⟨[("r", [⟨1, "Alice", 0⟩, ⟨2, "Bob", 0⟩])], ["r"]⟩,
        store := [], sent := [(3, .error roomFullMsg)], closed := true,
        admitted := false, username := some "Carol" } := by
  have h := C1_two_participant_cap true
      ⟨[("r", [⟨1, "Alice", 0⟩, ⟨2, "Bob", 0⟩])], ["r"]⟩ []
      "r" 3 (.msg (some "Carol")) 7 "Alice" .disconnect
      (by intro r; by_cases hr : "r" = r <;> simp [roomConns, alookup, hr])
  exact h.2.2 (by decide) (some "Carol")

/-- C7: a malformed (or missing) first inbound message makes the server
close the transport silently — nothing is sent and neither the registry
nor the store is mutated — while a well-formed first message lacking a
`username` field defaults the name to "Anonymous" and admission
proceeds. -/
theorem C7_handshake (ra : Bool) (mgr : Manager) (store : Store)
    (room_id : String) (ws : Nat) (now : Nat) :
    sessionStart ra mgr store room_id ws .malformed now =
      { manager := mgr, store := store, sent := [], closed := true,
        admitted := false, username := none }
    ∧ ((roomConns mgr room_id).length < 2 →
        (sessionStart ra mgr store room_id ws (.msg none) now).username =
            some "Anonymous"
        ∧ (sessionStart ra mgr store room_id ws (.msg none) now).admitted =
            true) := by
  constructor
  · rfl
  · intro h
    have hnot : ¬ 2 ≤ (roomConns mgr room_id).length := by omega
    cases ra <;> simp [sessionStart, hnot]

theorem C7_handshake_witness :
    (sessionStart true ⟨[], []⟩ [] "r" 1 .malformed 0).sent = []
    ∧ (sessionStart true ⟨[], []⟩ [] "r" 1 (.msg none) 0).username =
        some "Anonymous" := by
  have h := C7_handshake true ⟨[], []⟩ [] "r" 1 0
  exact ⟨by rw [h.1], (h.2 (by decide)).1⟩

/-- C8: load-or-create of a room's document is idempotent — the first
access to an unseen room writes a document with all six sections empty,
and a subsequent access returns the stored record unchanged without
rewriting the store. -/
theorem C8_load_or_create (store : Store) (docKey : String) (now now' : Nat)
    (h : alookup store docKey = none) :
    (loadOrCreate store docKey now).1.sections = TEMPLATE_SECTIONS
    ∧ alookup (loadOrCreate store docKey now).2 docKey =
        some ((loadOrCreate store docKey now).1, 3600)
    ∧ loadOrCreate (loadOrCreate store docKey now).2 docKey now' =
        ((loadOrCreate store docKey now).1,
         (loadOrCreate store docKey now).2) := by
  have h1 : loadOrCreate store docKey now =
      (freshConnDoc now, setex store docKey 3600 (freshConnDoc now)) := by
    simp [loadOrCreate, h]
  rw [h1]
  have h2 : alookup (setex store docKey 3600 (freshConnDoc now)) docKey =
      some (freshConnDoc now, 3600) := by
    simp [setex, alookup_aset]
  refine ⟨rfl, h2, ?_⟩
  simp [loadOrCreate, h2]

theorem C8_load_or_create_witness :
    (loadOrCreate [] "report:r" 1).1.sections = TEMPLATE_SECTIONS
    ∧ alookup (loadOrCreate [] "report:r" 1).2 "report:r" =
        some ((loadOrCreate [] "report:r" 1).1, 3600)
    ∧ loadOrCreate (loadOrCreate [] "report:r" 1).2 "report:r" 2 =
        ((loadOrCreate [] "report:r" 1).1, (loadOrCreate [] "report:r" 1).2) :=
  C8_load_or_create [] "report:r" 1 2 rfl

/-- C9: with the store reachable, room creation returns an 8-character
`room_id` (the first 8 characters of a 36-character UUID string) and
initializes the document under `"report:" + room_id` with all six
sections empty and a ttl of 3600 seconds. -/
theorem C9_create_room (uuidStr : String) (now : Nat) (store : Store)
    (h : uuidStr.length = 36) :
    ∃ store' rid,
      create_room true uuidStr now store = .ok (store', rid)
      ∧ rid.length = 8
      ∧ alookup store' ("report:" ++ rid) =
          some ({ sections := TEMPLATE_SECTIONS, cursors := [],
                  created_at := some now, last_active := now }, 3600) := by
  refine ⟨_, _, rfl, ?_, ?_⟩
  · show (uuidStr.take 8).length = 8
    rw [String.take_eq]
    show (uuidStr.data.take 8).length = 8
    rw [List.length_take]
    have h' : uuidStr.data.length = 36 := h
    rw [h']
    decide
  · simp [setex, alookup_aset]

theorem C9_create_room_witness :
    ∃ store' rid,
      create_room true "0123cdef-0123-4567-89ab-0123456789ab" 5 [] =
          .ok (store', rid)
      ∧ rid.length = 8
      ∧ alookup store' ("report:" ++ rid) =
          some ({ sections := TEMPLATE_SECTIONS, cursors := [],
                  created_at := some 5, last_active := 5 }, 3600) :=
  C9_create_room "0123cdef-0123-4567-89ab-0123456789ab" 5 [] (by rfl)

/-- C10: a `cursor` message is rebroadcast, with its fields verbatim, to
exactly the other connected participants of the room (the sender is
excluded) and leaves the store entirely unchanged. -/
theorem C10_cursor_frame (ra : Bool) (mgr : Manager) (store : Store)
    (room_id : String) (ws : Nat) (username : String) (now : Nat)
    (sectionKey position : Option String) :
    (handleMessage ra mgr store room_id ws username now
        (.cursor sectionKey position)).1 = store
    ∧ (handleMessage ra mgr store room_id ws username now
        (.cursor sectionKey position)).2 =
        ((roomConns mgr room_id).filter (fun c => c.ws ≠ ws)).map
          (fun c => (c.ws, ServerMsg.cursor sectionKey position username))
    ∧ ∀ p ∈ (handleMessage ra mgr store room_id ws username now
        (.cursor sectionKey position)).2, p.1 ≠ ws := by
  refine ⟨rfl, ?_, ?_⟩
  · show broadcastTo mgr room_id
        (.cursor sectionKey position username) (some ws) = _
    rw [broadcastTo_some_eq]
  · show ∀ p ∈ broadcastTo mgr room_id
        (.cursor sectionKey position username) (some ws), p.1 ≠ ws
    exact broadcastTo_excludes mgr room_id _ ws

/-- C2 counterexample: the edit handler never validates the client-supplied
section name, so an `edit` message for the section "evil" adds a seventh
key to the persisted `sections` mapping — before the edit the key is
absent, after it the stored document has it. -/
theorem C2_counterexample :
    hasKey (freshConnDoc 0).sections "evil" = false
    ∧ (alookup (handleMessage true
          ⟨[("r", [⟨1, "Alice", 0⟩, ⟨2, "Bob", 0⟩])], ["r"]⟩
          [("report:r", (freshConnDoc 0, 3600))]
          "r" 1 "Alice" 5 (.edit (some "evil") none (some "x"))).1
        "report:r").map (fun e => hasKey e.1.sections "evil") = some true := by
  exact ⟨rfl, rfl⟩

/-- C2 (amended): documents created on first connection carry exactly the
six fixed section keys; an `edit` whose section is one of the six leaves
the stored key set exactly the six; and no edit ever removes a key — but
(per the counterexample) an edit with a section outside the six adds that
key. -/
theorem C2_sections_keys (mgr : Manager) (store : Store) (room_id : String)
    (ws : Nat) (username : String) (now : Nat) (doc : Document) (ttl : Nat)
    (sectionKey : String) (delta content : Option String)
    (hdoc : alookup store ("report:" ++ room_id) = some (doc, ttl))
    (hkeys : akeys doc.sections = sixKeys)
    (hs : sectionKey ∈ sixKeys) :
    akeys (freshConnDoc now).sections = sixKeys
    ∧ (alookup (handleMessage true mgr store room_id ws username now
          (.edit (some sectionKey) delta content)).1
        ("report:" ++ room_id)).map (fun e => akeys e.1.sections) =
        some sixKeys
    ∧ (∀ k s' c', k ∈ akeys doc.sections →
        k ∈ akeys (applyEdit doc s' c' now).sections) := by
  have hne : sectionKey ≠ "" := by
    simp [sixKeys, akeys, TEMPLATE_SECTIONS] at hs
    rcases hs with h | h | h | h | h | h <;> subst h <;> decide
  have hhk : hasKey doc.sections sectionKey = true := by
    rw [← mem_akeys_iff_hasKey, hkeys]
    exact hs
  have happ : akeys (applyEdit doc sectionKey content now).sections =
      sixKeys := by
    cases content with
    | none => simpa [applyEdit] using hkeys
    | some c =>
        have hsec : (applyEdit doc sectionKey (some c) now).sections =
            aset doc.sections sectionKey c := rfl
        rw [hsec, akeys_aset]
        simp [hhk, hkeys]
  refine ⟨rfl, ?_, ?_⟩
  · have hmain : (handleMessage true mgr store room_id ws username now
        (.edit (some sectionKey) delta content)).1 =
        setex store ("report:" ++ room_id) 3600
          (applyEdit doc sectionKey content now) := by
      simp [handleMessage, truthy, hne, hdoc]
    rw [hmain]
    simp [setex, alookup_aset, happ]
  · intro k s' c' hk
    cases c' with
    | none => simpa [applyEdit] using hk
    | some c =>
        have hsec : (applyEdit doc s' (some c) now).sections =
            aset doc.sections s' c := rfl
        rw [hsec]
        exact mem_akeys_aset _ _ _ _ hk

theorem C2_sections_keys_witness :
    akeys (freshConnDoc 5).sections = sixKeys
    ∧ (alookup (handleMessage true ⟨[("r", [⟨1, "Alice", 0⟩])], ["r"]⟩
          [("report:r", (freshConnDoc 0, 3600))]
          "r" 1 "Alice" 5 (.edit (some "abstract") none (some "Hi"))).1
        "report:r").map (fun e => akeys e.1.sections) = some sixKeys := by
  have h := C2_sections_keys ⟨[("r", [⟨1, "Alice", 0⟩])], ["r"]⟩
      [("report:r", (freshConnDoc 0, 3600))] "r" 1 "Alice" 5
      (freshConnDoc 0) 3600 "abstract" none (some "Hi")
      rfl rfl (by decide)
  exact ⟨h.1, h.2.1⟩

/-- C3 counterexample: with the store unreachable (`redis_client` falsy),
an `edit` message from Alice in a two-person room is dropped entirely —
nothing is sent to Bob — because the rebroadcast sits inside the
`if redis_client and section:` guard; the claim's "delivery happens even
when the Document Store is unreachable" is false. -/
theorem C3_counterexample :
    handleMessage false ⟨[("r", [⟨1, "Alice", 0⟩, ⟨2, "Bob", 0⟩])], ["r"]⟩
        [("report:r", (freshConnDoc 0, 3600))]
        "r" 1 "Alice" 5 (.edit (some "abstract") (some "d") (some "Hello")) =
      ([("report:r", (freshConnDoc 0, 3600))], []) := by
  rfl

/-- C3 (amended): when the store client is available and the `section`
field is present and non-empty, an `edit` message is rebroadcast with its
`section`, `delta` and `content` fields verbatim (plus the sender's name)
to exactly the other connected participants, the sender excluded; when the
store is unreachable the edit is neither persisted nor rebroadcast. -/
theorem C3_edit_broadcast (mgr : Manager) (store : Store) (room_id : String)
    (ws : Nat) (username : String) (now : Nat) (sectionKey : String)
    (delta content : Option String) (hs : sectionKey ≠ "") :
    (handleMessage true mgr store room_id ws username now
        (.edit (some sectionKey) delta content)).2 =
      ((roomConns mgr room_id).filter (fun c => c.ws ≠ ws)).map
        (fun c => (c.ws,
          ServerMsg.edit (some sectionKey) delta content username))
    ∧ (∀ p ∈ (handleMessage true mgr store room_id ws username now
        (.edit (some sectionKey) delta content)).2, p.1 ≠ ws)
    ∧ handleMessage false mgr store room_id ws username now
        (.edit (some sectionKey) delta content) = (store, []) := by
  have h2 : (handleMessage true mgr store room_id ws username now
      (.edit (some sectionKey) delta content)).2 =
      broadcastTo mgr room_id
        (.edit (some sectionKey) delta content username) (some ws) := by
    simp [handleMessage, truthy, hs]
  refine ⟨?_, ?_, rfl⟩
  · rw [h2, broadcastTo_some_eq]
  · rw [h2]
    exact broadcastTo_excludes mgr room_id _ ws

theorem C3_edit_broadcast_witness :
    (handleMessage true ⟨[("r", [⟨1, "Alice", 0⟩, ⟨2, "Bob", 0⟩])], ["r"]⟩
        [("report:r", (freshConnDoc 0, 3600))]
        "r" 1 "Alice" 5
        (.edit (some "abstract") (some "d") (some "Hello"))).2 =
      [(2, ServerMsg.edit (some "abstract") (some "d") (some "Hello")
            "Alice")] := by
  have h := C3_edit_broadcast
      ⟨[("r", [⟨1, "Alice", 0⟩, ⟨2, "Bob", 0⟩])], ["r"]⟩
      [("report:r", (freshConnDoc 0, 3600))] "r" 1 "Alice" 5 "abstract"
      (some "d") (some "Hello") (by decide)
  rw [h.1]
  rfl

/-- C4 counterexample: when the `Active` loop ends via the generic
`except Exception` handler rather than `WebSocketDisconnect`, Alice is
removed from the registry but Bob receives no `user_left` message — the
claim's "the broadcast always runs on unexpected transport termination,
identically to a clean disconnect" is false. -/
theorem C4_counterexample :
    handleTermination ⟨[("r", [⟨1, "Alice", 0⟩, ⟨2, "Bob", 0⟩])], ["r"]⟩
        "r" 1 "Alice" .otherError =
      (⟨[("r", [⟨2, "Bob", 0⟩])], ["r"]⟩, []) := by
  rfl

/-- C4 (amended): on a `WebSocketDisconnect` the participant is removed
from the registry and `user_left` (with the post-removal user list) is
sent to exactly the remaining participants; on any other unexpected
exception only the registry cleanup runs and no `user_left` is sent. -/
theorem C4_termination (mgr : Manager) (room_id : String) (ws : Nat)
    (username : String) :
    (handleTermination mgr room_id ws username .disconnect).1 =
        mgr.disconnect room_id ws
    ∧ (handleTermination mgr room_id ws username .disconnect).2 =
        ((roomConns mgr room_id).filter (fun c => c.ws ≠ ws)).map
          (fun c => (c.ws, ServerMsg.user_left username
            (((roomConns mgr room_id).filter (fun c => c.ws ≠ ws)).map
              Conn.username)))
    ∧ handleTermination mgr room_id ws username .otherError =
        (mgr.disconnect room_id ws, []) := by
  have hconns : roomConns (mgr.disconnect room_id ws) room_id =
      (roomConns mgr room_id).filter (fun c => c.ws ≠ ws) := by
    rw [roomConns_disconnect]
    simp
  refine ⟨rfl, ?_, rfl⟩
  show broadcastTo (mgr.disconnect room_id ws) room_id
      (.user_left username (getUsers (mgr.disconnect room_id ws) room_id))
      none = _
  have husers : getUsers (mgr.disconnect room_id ws) room_id =
      ((roomConns mgr room_id).filter (fun c => c.ws ≠ ws)).map
        Conn.username := by
    unfold getUsers
    rw [hconns]
  rw [broadcastTo_none_eq, husers, hconns]

/-- C5 counterexample: one keep-alive wake-up over a record whose
`last_active` is 0, at clock time 5, rewrites the record with
`last_active = 5` — the stored record after the refresh is not
field-for-field equal to the record that was read. -/
theorem C5_counterexample :
    alookup (autoSaveStep true
        [("report:r", ({ sections := TEMPLATE_SECTIONS, cursors := [],
                         created_at := some 0, last_active := 0 }, 3600))]
        "r" 5) "report:r"
      ≠ alookup
        [("report:r", ({ sections := TEMPLATE_SECTIONS, cursors := [],
                         created_at := some 0, last_active := 0 }, 3600))]
        "report:r" := by
  decide

/-- C5 (amended): each keep-alive iteration re-reads the room's record
and re-writes it with ttl 3600 and `last_active` set to the current time;
`sections`, `cursors` and `created_at` are unchanged. -/
theorem C5_keep_alive (store : Store) (room_id : String) (now : Nat)
    (doc : Document) (ttl : Nat)
    (h : alookup store ("report:" ++ room_id) = some (doc, ttl)) :
    autoSaveStep true store room_id now =
      setex store ("report:" ++ room_id) 3600 { doc with last_active := now }
    ∧ ({ doc with last_active := now } : Document).sections = doc.sections
    ∧ ({ doc with last_active := now } : Document).cursors = doc.cursors
    ∧ ({ doc with last_active := now } : Document).created_at =
        doc.created_at := by
  refine ⟨?_, rfl, rfl, rfl⟩
  simp [autoSaveStep, h]

theorem C5_keep_alive_witness :
    autoSaveStep true [("report:r", (freshConnDoc 0, 3600))] "r" 5 =
      setex [("report:r", (freshConnDoc 0, 3600))] "report:r" 3600
        { freshConnDoc 0 with last_active := 5 } := by
  have h := C5_keep_alive [("report:r", (freshConnDoc 0, 3600))] "r" 5
      (freshConnDoc 0) 3600 rfl
  exact h.1

/-- C6 counterexample: the document written to the store on first
connection to an unseen room has no `created_at` field — the claim that
every written record contains all four fields is false for that path. -/
theorem C6_counterexample :
    (alookup (loadOrCreate [] "report:r" 7).2 "report:r").map
        (fun e => e.1.created_at) = some none := by
  rfl

/-- C6 (amended): records written by `create_room` contain `sections`,
`cursors`, `created_at` and `last_active`; the record created on first
websocket connection contains `sections`, `cursors` and `last_active`
but omits `created_at`. -/
theorem C6_written_fields (uuidStr : String) (now : Nat)
    (store store2 : Store) (docKey : String)
    (h2 : alookup store2 docKey = none) :
    (∀ store' rid,
        create_room true uuidStr now store = .ok (store', rid) →
        alookup store' ("report:" ++ rid) =
          some ({ sections := TEMPLATE_SECTIONS, cursors := [],
                  created_at := some now, last_active := now }, 3600))
    ∧ (loadOrCreate store2 docKey now).1.sections = TEMPLATE_SECTIONS
    ∧ (loadOrCreate store2 docKey now).1.cursors = []
    ∧ (loadOrCreate store2 docKey now).1.last_active = now
    ∧ (loadOrCreate store2 docKey now).1.created_at = none := by
  have hl : loadOrCreate store2 docKey now =
      (freshConnDoc now, setex store2 docKey 3600 (freshConnDoc now)) := by
    simp [loadOrCreate, h2]
  have hfields :
      (loadOrCreate store2 docKey now).1.sections = TEMPLATE_SECTIONS
      ∧ (loadOrCreate store2 docKey now).1.cursors = []
      ∧ (loadOrCreate store2 docKey now).1.last_active = now
      ∧ (loadOrCreate store2 docKey now).1.created_at = none := by
    rw [hl]
    exact ⟨rfl, rfl, rfl, rfl⟩
  refine ⟨?_, hfields.1, hfields.2.1, hfields.2.2.1, hfields.2.2.2⟩
  intro store' rid hcr
  simp only [create_room, if_pos, Except.ok.injEq, Prod.mk.injEq] at hcr
  rcases hcr with ⟨rfl, rfl⟩
  simp [setex, alookup_aset]

theorem C6_written_fields_witness :
    (loadOrCreate [] "report:r" 7).1.last_active = 7
    ∧ (loadOrCreate [] "report:r" 7).1.created_at = none := by
  have h := C6_written_fields "0123cdef-0123-4567-89ab-0123456789ab" 7
      [] [] "report:r" rfl
  exact ⟨h.2.2.2.1, h.2.2.2.2⟩

end DuoReport
